import Mathlib

/-!
Shallow embedding of `src/components/VueHorizontalScrollbar.vue`
(a Vue 3 horizontal-scrollbar component) and verification of the
spec's claims about it.

Numeric values are modelled as exact rationals.  Where the source can
produce a non-finite JavaScript number (division by zero in the
click/drag geometry), we use `JSNum`, a rational extended with the
IEEE-754 special values `+Infinity`, `-Infinity` and `NaN`, with the
JavaScript semantics of `+`, `*`, `/`, `Math.min` and `Math.max`.
-/

set_option autoImplicit false

namespace HScroll

/-- A JavaScript number: a finite value (modelled exactly as a rational)
or one of the special values `+Infinity`, `-Infinity`, `NaN`. -/
inductive JSNum where
  | num (q : ℚ)
  | posInf
  | negInf
  | nan
deriving DecidableEq, Repr

namespace JSNum

/-- JavaScript addition restricted to the cases reachable here
(finite values and the special values). -/
def jadd : JSNum → JSNum → JSNum
  | num a, num b => num (a + b)
  | nan, _ => nan
  | _, nan => nan
  | posInf, negInf => nan
  | negInf, posInf => nan
  | posInf, _ => posInf
  | _, posInf => posInf
  | negInf, _ => negInf
  | _, negInf => negInf

/-- JavaScript multiplication: `Infinity * 0 = NaN`, signs as in IEEE-754. -/
def jmul : JSNum → JSNum → JSNum
  | num a, num b => num (a * b)
  | nan, _ => nan
  | _, nan => nan
  | posInf, posInf => posInf
  | posInf, negInf => negInf
  | negInf, posInf => negInf
  | negInf, negInf => posInf
  | posInf, num b => if 0 < b then posInf else if b < 0 then negInf else nan
  | num a, posInf => if 0 < a then posInf else if a < 0 then negInf else nan
  | negInf, num b => if 0 < b then negInf else if b < 0 then posInf else nan
  | num a, negInf => if 0 < a then negInf else if a < 0 then posInf else nan

/-- JavaScript division: `a / 0` is `±Infinity` for `a ≠ 0` and `NaN` for
`a = 0` (signed zero is not modelled). -/
def jdiv : JSNum → JSNum → JSNum
  | num a, num b =>
      if b = 0 then (if 0 < a then posInf else if a < 0 then negInf else nan)
      else num (a / b)
  | nan, _ => nan
  | _, nan => nan
  | posInf, posInf => nan
  | posInf, negInf => nan
  | negInf, posInf => nan
  | negInf, negInf => nan
  | posInf, num b => if b < 0 then negInf else posInf
  | negInf, num b => if b < 0 then posInf else negInf
  | num _, posInf => num 0
  | num _, negInf => num 0

/-- `Math.min`: `NaN` if either argument is `NaN`. -/
def jmin : JSNum → JSNum → JSNum
  | nan, _ => nan
  | _, nan => nan
  | negInf, _ => negInf
  | _, negInf => negInf
  | posInf, b => b
  | a, posInf => a
  | num a, num b => num (min a b)

/-- `Math.max`: `NaN` if either argument is `NaN`. -/
def jmax : JSNum → JSNum → JSNum
  | nan, _ => nan
  | _, nan => nan
  | posInf, _ => posInf
  | _, posInf => posInf
  | negInf, b => b
  | a, negInf => a
  | num a, num b => num (max a b)

end JSNum

open JSNum

/-- The click-to-offset computation of `handleScrollbarClick` (line 176):
`((clickX - thumbWidth / 2) / (scrollbarWidth - thumbWidth)) * maxScroll`,
with JavaScript division semantics (the denominator is not guarded). -/
def offsetFromClick (clickX scrollbarWidth thumbWidth maxScroll : ℚ) : JSNum :=
  jmul (jdiv (num (clickX - thumbWidth / 2)) (num (scrollbarWidth - thumbWidth)))
    (num maxScroll)

/-- The drag-to-offset computation of `updateDragPosition` (lines 226-231):
`dragStartScrollLeft + (deltaX / (scrollbarWidth - thumbWidth)) * maxScroll`,
with JavaScript division semantics (the denominator is not guarded). -/
def offsetFromDrag (deltaX scrollbarWidth thumbWidth maxScroll startScrollLeft : ℚ) : JSNum :=
  jadd (num startScrollLeft)
    (jmul (jdiv (num deltaX) (num (scrollbarWidth - thumbWidth))) (num maxScroll))

/-- The clamp of `scrollToPosition` (line 159),
`Math.max(0, Math.min(maxScroll, position))`, on JavaScript numbers. -/
def clampJS (maxScroll : ℚ) (position : JSNum) : JSNum :=
  jmax (num 0) (jmin (num maxScroll) position)

/-- The thumb width computed in `thumbStyle` (lines 46-53):
`Math.max(minThumbWidth, targetWidth / contentWidth * scrollbarWidth)`, where
`contentWidth` is the source's `contentElement?.value?.scrollWidth || 1`
(a zero width is replaced by 1). -/
def thumbWidthCalc (targetWidth contentWidth scrollbarWidth minThumbWidth : ℚ) : ℚ :=
  max minThumbWidth
    (targetWidth / (if contentWidth = 0 then 1 else contentWidth) * scrollbarWidth)

/-- The thumb position computed in `thumbStyle` (lines 55-57):
`maxScroll > 0 ? scrollLeft / maxScroll * (scrollbarWidth - thumbWidth) : 0`. -/
def thumbPosition (scrollLeft maxScroll scrollbarWidth thumbWidth : ℚ) : ℚ :=
  if 0 < maxScroll then scrollLeft / maxScroll * (scrollbarWidth - thumbWidth) else 0

/-- The pair `(width, left)` of the `thumbStyle` computed property (lines 45-63). -/
def thumbStyle (targetWidth contentWidth scrollbarWidth minThumbWidth scrollLeft maxScroll :
    ℚ) : ℚ × ℚ :=
  (thumbWidthCalc targetWidth contentWidth scrollbarWidth minThumbWidth,
   thumbPosition scrollLeft maxScroll scrollbarWidth
     (thumbWidthCalc targetWidth contentWidth scrollbarWidth minThumbWidth))

/-- An outbound notification of the component (`defineEmits`).  The
`scroll` event carries the `ScrollInfo` payload built in `updateScrollInfo`. -/
inductive Event where
  | ready
  | error
  | scroll (scrollLeft maxScroll scrollPercent : ℚ)
  | click
  | dragStart
  | dragEnd
  | keydown
deriving DecidableEq, Repr

/-- The reactive scroll state refs: `scrollLeft`, `maxScroll`,
`scrollPercent` (lines 28-30) and `showScrollbar` (line 31). -/
structure ScrollState where
  scrollLeft : ℚ
  maxScroll : ℚ
  scrollPercent : ℚ
  showScrollbar : Bool
deriving DecidableEq, Repr

/-- The DOM metrics read by `updateScrollInfo`:
`targetElement.scrollLeft`, `contentElement.scrollWidth`,
`targetElement.clientWidth`. -/
structure DomMetrics where
  scrollLeft : ℚ
  scrollWidth : ℚ
  clientWidth : ℚ
deriving DecidableEq, Repr

/-- `updateScrollInfo` (lines 131-154).  `resolved` models
`targetElement.value && contentElement.value` being non-null (line 132);
when false, the function returns without touching state or emitting.
Returns the new scroll state together with the list of emitted events. -/
def updateScrollInfo (resolved autoShow : Bool) (minScrollDistance : ℚ)
    (m : DomMetrics) (s : ScrollState) : ScrollState × List Event :=
  if resolved = false then (s, [])
  else
    let newMaxScroll := max 0 (m.scrollWidth - m.clientWidth)
    let newScrollPercent := if 0 < newMaxScroll then m.scrollLeft / newMaxScroll * 100 else 0
    let showBar := if autoShow then decide (minScrollDistance < newMaxScroll) else true
    ({ scrollLeft := m.scrollLeft, maxScroll := newMaxScroll,
       scrollPercent := newScrollPercent, showScrollbar := showBar },
     [Event.scroll m.scrollLeft newMaxScroll newScrollPercent])

/-- The body of `throttledHandleScroll` (lines 65-69): recompute only when
`isDragging` is false. -/
def throttledHandleScroll (isDragging resolved autoShow : Bool)
    (minScrollDistance : ℚ) (m : DomMetrics) (s : ScrollState) :
    ScrollState × List Event :=
  if isDragging then (s, []) else updateScrollInfo resolved autoShow minScrollDistance m s

/-- The `ResizeObserver` callback installed by `setupResizeObserver`
(lines 118-120): it calls `updateScrollInfo()` unconditionally; the
component's `isDragging` flag is taken as an argument only to show that the
callback ignores it. -/
def resizeObserverCallback (_isDragging : Bool) (resolved autoShow : Bool)
    (minScrollDistance : ℚ) (m : DomMetrics) (s : ScrollState) :
    ScrollState × List Event :=
  updateScrollInfo resolved autoShow minScrollDistance m s

/-- `scrollToPosition` (lines 156-161): when the target element is resolved,
the offset written to `targetElement.scrollLeft` is
`Math.max(0, Math.min(maxScroll, position))`; otherwise the function
returns early and the target keeps its previous offset. -/
def scrollToPosition (targetResolved : Bool) (maxScroll oldOffset position : ℚ) : ℚ :=
  if targetResolved then max 0 (min maxScroll position) else oldOffset

/-- The drag refs `isDragging`, `dragStartX`, `dragStartScrollLeft`
(lines 37-39). -/
structure DragState where
  isDragging : Bool
  dragStartX : ℚ
  dragStartScrollLeft : ℚ
deriving DecidableEq, Repr

/-- Which document-level listeners are attached.  `addEventListener` with
the same (type, handler) pair as an already-attached listener is discarded
by the DOM, so a boolean per handler is an exact model. -/
structure DocListeners where
  mousemove : Bool
  mouseup : Bool
  touchmove : Bool
  touchend : Bool
  keydown : Bool
deriving DecidableEq, Repr

/-- `startDragging` (lines 206-210). -/
def startDragging (clientX scrollLeft : ℚ) (_d : DragState) : DragState :=
  { isDragging := true, dragStartX := clientX, dragStartScrollLeft := scrollLeft }

/-- `handleThumbMouseDown` (lines 182-192): early-return on `disabled`,
otherwise unconditionally re-run `startDragging`, attach the document
mousemove/mouseup listeners and emit `dragStart`. -/
def handleThumbMouseDown (disabled : Bool) (clientX scrollLeft : ℚ)
    (d : DragState) (L : DocListeners) : DragState × DocListeners × List Event :=
  if disabled then (d, L, [])
  else (startDragging clientX scrollLeft d,
        { L with mousemove := true, mouseup := true },
        [Event.dragStart])

/-- `handleThumbTouchStart` (lines 194-204): same shape as the mouse
handler, with the touchmove/touchend listeners; `clientX` is
`e.touches[0].clientX`. -/
def handleThumbTouchStart (disabled : Bool) (clientX scrollLeft : ℚ)
    (d : DragState) (L : DocListeners) : DragState × DocListeners × List Event :=
  if disabled then (d, L, [])
  else (startDragging clientX scrollLeft d,
        { L with touchmove := true, touchend := true },
        [Event.dragStart])

/-- `stopDragging` (lines 251-253): only resets the flag. -/
def stopDragging (d : DragState) : DragState :=
  { d with isDragging := false }

/-- The listener/observer half of the component state, as touched by
`cleanup`. -/
structure CompState where
  drag : DragState
  doc : DocListeners
  scrollListenerAttached : Bool
  resizeObserverActive : Bool
deriving DecidableEq, Repr

/-- `cleanup` (lines 285-299): removes the scroll listener when the target
element is resolved (`targetResolved`; the listener can only have been
attached in that case), disconnects the resize observer, and removes the
five document listeners.  It does not touch the drag refs. -/
def cleanup (targetResolved : Bool) (s : CompState) : CompState :=
  { s with
    scrollListenerAttached :=
      if targetResolved then false else s.scrollListenerAttached,
    resizeObserverActive := false,
    doc := { mousemove := false, mouseup := false, touchmove := false,
             touchend := false, keydown := false } }

/-- `handleScrollbarClick` (lines 167-180): early return when either ref is
missing or the component is disabled, or when the click landed on the thumb;
otherwise compute the offset, apply it through `scrollToPosition` (which
clamps, and only writes when the target element is resolved) and emit
`click`.  Returns the target's scroll offset after the call
(as a JavaScript number) and the emitted events. -/
def handleScrollbarClick
    (scrollbarRefPresent thumbRefPresent disabled targetIsThumb targetResolved : Bool)
    (clickX scrollbarWidth thumbWidth maxScroll oldOffset : ℚ) : JSNum × List Event :=
  if !scrollbarRefPresent || !thumbRefPresent || disabled then (JSNum.num oldOffset, [])
  else if targetIsThumb then (JSNum.num oldOffset, [])
  else
    (if targetResolved then
        clampJS maxScroll (offsetFromClick clickX scrollbarWidth thumbWidth maxScroll)
      else JSNum.num oldOffset,
     [Event.click])

/-- The offset-application part of `updateDragPosition` (lines 223-235):
early return when the scrollbar ref is missing, otherwise
`offsetFromDrag` on `deltaX = clientX - dragStartX`, applied through
`scrollToPosition`.  (The trailing `updateScrollInfo()` call is modelled
separately by `updateScrollInfo`.) -/
def updateDragPosition (scrollbarRefPresent targetResolved : Bool)
    (clientX dragStartX scrollbarWidth thumbWidth maxScroll dragStartScrollLeft
     oldOffset : ℚ) : JSNum :=
  if !scrollbarRefPresent then JSNum.num oldOffset
  else if targetResolved then
    clampJS maxScroll
      (offsetFromDrag (clientX - dragStartX) scrollbarWidth thumbWidth maxScroll
        dragStartScrollLeft)
  else JSNum.num oldOffset

/-- A key as inspected by `handleKeyDown`'s `switch`. -/
inductive Key where
  | arrowLeft
  | arrowRight
  | homeKey
  | endKey
  | other
deriving DecidableEq, Repr

/-- `handleKeyDown` (lines 255-283): early return unless keyboard support is
enabled, the target is resolved and the component is not disabled; the four
handled keys go through `scrollToPosition` (`endKey` via `scrollToEnd`,
line 163-165) and emit `keydown`; unhandled keys do nothing.  Returns the
target's scroll offset after the call and the emitted events. -/
def handleKeyDown (enableKeyboard targetResolved disabled : Bool) (key : Key)
    (scrollLeft scrollStep maxScroll oldOffset : ℚ) : ℚ × List Event :=
  if !enableKeyboard || !targetResolved || disabled then (oldOffset, [])
  else
    match key with
    | Key.arrowLeft =>
        (scrollToPosition true maxScroll oldOffset (scrollLeft - scrollStep), [Event.keydown])
    | Key.arrowRight =>
        (scrollToPosition true maxScroll oldOffset (scrollLeft + scrollStep), [Event.keydown])
    | Key.homeKey => (scrollToPosition true maxScroll oldOffset 0, [Event.keydown])
    | Key.endKey => (scrollToPosition true maxScroll oldOffset maxScroll, [Event.keydown])
    | Key.other => (oldOffset, [])

/-- The behaviour of a caller-supplied `ElementSelector` as `getElement`
distinguishes the cases (elements are labelled by naturals):
a string query that matches (`str (some e)`) or matches nothing
(`str none`), a string query whose lookup throws (`strThrows`), a resolver
function returning an element (`fn (some e)`) or null/undefined
(`fn none`), a resolver function that throws (`fnThrows`), and any value
that is neither a string nor a function (`other`). -/
inductive Selector where
  | str (matched : Option ℕ)
  | strThrows
  | fn (result : Option ℕ)
  | fnThrows
  | other
deriving DecidableEq, Repr

/-- `getElement` (lines 71-90): a string selector that matches nothing emits
`error` and returns null; a resolver function returning null/undefined is
`selector() || null` with no emission; a thrown exception is caught, emits
`error` and returns null; anything else falls through to `return null`. -/
def getElement : Selector → Option ℕ × List Event
  | Selector.str (some e) => (some e, [])
  | Selector.str none => (none, [Event.error])
  | Selector.strThrows => (none, [Event.error])
  | Selector.fn (some e) => (some e, [])
  | Selector.fn none => (none, [])
  | Selector.fnThrows => (none, [Event.error])
  | Selector.other => (none, [])

namespace JSNum

theorem jdiv_num_num (a b : ℚ) (hb : b ≠ 0) : jdiv (num a) (num b) = num (a / b) := by
  simp [jdiv, hb]

theorem jdiv_num_zero (a : ℚ) :
    jdiv (num a) (num 0) =
      if 0 < a then posInf else if a < 0 then negInf else nan := by
  simp [jdiv]

theorem jmul_num_num (a b : ℚ) : jmul (num a) (num b) = num (a * b) := rfl

theorem jmul_posInf_num (b : ℚ) (hb : 0 < b) : jmul posInf (num b) = posInf := by
  simp [jmul, hb]

theorem jmul_negInf_num (b : ℚ) (hb : 0 < b) : jmul negInf (num b) = negInf := by
  simp [jmul, hb]

theorem jadd_num_num (a b : ℚ) : jadd (num a) (num b) = num (a + b) := rfl

theorem jadd_num_posInf (a : ℚ) : jadd (num a) posInf = posInf := rfl

theorem jadd_num_negInf (a : ℚ) : jadd (num a) negInf = negInf := rfl

theorem jadd_num_nan (a : ℚ) : jadd (num a) nan = nan := rfl

theorem jmul_nan_num (b : ℚ) : jmul nan (num b) = nan := rfl

end JSNum

theorem clampJS_posInf (maxScroll : ℚ) (h : 0 ≤ maxScroll) :
    clampJS maxScroll JSNum.posInf = JSNum.num maxScroll := by
  simp [clampJS, JSNum.jmin, JSNum.jmax, max_eq_right h]

theorem clampJS_negInf (maxScroll : ℚ) : clampJS maxScroll JSNum.negInf = JSNum.num 0 := rfl

theorem clampJS_nan (maxScroll : ℚ) : clampJS maxScroll JSNum.nan = JSNum.nan := rfl

/-- C1: the claim states that for `trackWidth == thumbWidth` the
click-to-offset and drag-to-offset computations do not perform an unguarded
division by zero and yield the start/zero offset.  Counterexample: with
track and thumb width both 100, `maxScroll = 500`, a click at `clickX = 100`
divides by zero and yields `+Infinity` (clamped to `maxScroll = 500`, not 0),
and a drag with `deltaX = 50` from `startScrollLeft = 200` likewise yields
`+Infinity` (clamped to 500, not the start offset 200). -/
theorem C1_counterexample :
    offsetFromClick 100 100 100 500 = JSNum.posInf ∧
    clampJS 500 (offsetFromClick 100 100 100 500) = JSNum.num 500 ∧
    offsetFromDrag 50 100 100 500 200 = JSNum.posInf ∧
    clampJS 500 (offsetFromDrag 50 100 100 500 200) = JSNum.num 500 := by
  norm_num [offsetFromClick, offsetFromDrag, clampJS, JSNum.jdiv, JSNum.jmul,
    JSNum.jadd, JSNum.jmin, JSNum.jmax]

/-- C1 (amended): when the track width equals the thumb width the division
is unguarded; no exception is raised (JavaScript division by zero yields
`±Infinity`, and `0 / 0` yields `NaN`), but the result is not the start/zero
offset: with `maxScroll > 0`, after clamping, a click to the right of half
the thumb width yields `maxScroll`, to the left yields `0`, and exactly at
half the thumb width yields `NaN`; a positive drag delta yields `maxScroll`,
a negative one yields `0`, and a zero delta yields `NaN`. -/
theorem C1_amended (clickX trackWidth maxScroll deltaX startScrollLeft : ℚ)
    (hms : 0 < maxScroll) :
    clampJS maxScroll (offsetFromClick clickX trackWidth trackWidth maxScroll) =
      (if trackWidth / 2 < clickX then JSNum.num maxScroll
       else if clickX < trackWidth / 2 then JSNum.num 0 else JSNum.nan) ∧
    clampJS maxScroll (offsetFromDrag deltaX trackWidth trackWidth maxScroll startScrollLeft) =
      (if 0 < deltaX then JSNum.num maxScroll
       else if deltaX < 0 then JSNum.num 0 else JSNum.nan) := by
  have hden : trackWidth - trackWidth = (0 : ℚ) := by ring
  constructor
  · unfold offsetFromClick
    rw [hden, JSNum.jdiv_num_zero]
    rcases lt_trichotomy (trackWidth / 2) clickX with h | h | h
    · have h1 : 0 < clickX - trackWidth / 2 := by linarith
      rw [if_pos h1, JSNum.jmul_posInf_num _ hms, clampJS_posInf _ hms.le, if_pos h]
    · have h1 : ¬ 0 < clickX - trackWidth / 2 := by linarith
      have h2 : ¬ clickX - trackWidth / 2 < 0 := by linarith
      rw [if_neg h1, if_neg h2, JSNum.jmul_nan_num, clampJS_nan,
        if_neg (by linarith : ¬ trackWidth / 2 < clickX),
        if_neg (by linarith : ¬ clickX < trackWidth / 2)]
    · have h1 : ¬ 0 < clickX - trackWidth / 2 := by linarith
      have h2 : clickX - trackWidth / 2 < 0 := by linarith
      rw [if_neg h1, if_pos h2, JSNum.jmul_negInf_num _ hms, clampJS_negInf,
        if_neg (by linarith : ¬ trackWidth / 2 < clickX), if_pos h]
  · unfold offsetFromDrag
    rw [hden, JSNum.jdiv_num_zero]
    rcases lt_trichotomy 0 deltaX with h | h | h
    · rw [if_pos h, JSNum.jmul_posInf_num _ hms, JSNum.jadd_num_posInf,
        clampJS_posInf _ hms.le, if_pos h]
    · rw [if_neg (by linarith : ¬ 0 < deltaX), if_neg (by linarith : ¬ deltaX < 0),
        JSNum.jmul_nan_num, JSNum.jadd_num_nan, clampJS_nan,
        if_neg (by linarith : ¬ 0 < deltaX), if_neg (by linarith : ¬ deltaX < 0)]
    · rw [if_neg (by linarith : ¬ 0 < deltaX), if_pos h, JSNum.jmul_negInf_num _ hms,
        JSNum.jadd_num_negInf, clampJS_negInf,
        if_neg (by linarith : ¬ 0 < deltaX), if_pos h]

/-- Witness for C1 (amended) at `clickX = 3`, `trackWidth = 4`,
`maxScroll = 5`, `deltaX = 1`, `startScrollLeft = 2`. -/
theorem C1_amended_witness :
    clampJS 5 (offsetFromClick 3 4 4 5) =
      (if (4 : ℚ) / 2 < 3 then JSNum.num 5
       else if (3 : ℚ) < 4 / 2 then JSNum.num 0 else JSNum.nan) ∧
    clampJS 5 (offsetFromDrag 1 4 4 5 2) =
      (if (0 : ℚ) < 1 then JSNum.num 5
       else if (1 : ℚ) < 0 then JSNum.num 0 else JSNum.nan) :=
  C1_amended 3 4 5 1 2 (by norm_num)

/-- C2: the claim states that a second pointer-down while a drag is active
is a no-op.  Counterexample: with an active drag session
`⟨isDragging := true, dragStartX := 10, dragStartScrollLeft := 0⟩` and the
mouse listeners already attached, a mouse-down at `clientX = 99` with
current `scrollLeft = 7` overwrites the stored start pointer X (10 becomes
99) and start scrollLeft (0 becomes 7) and emits a second `dragStart`. -/
theorem C2_counterexample :
    handleThumbMouseDown false 99 7 ⟨true, 10, 0⟩ ⟨true, true, false, false, true⟩ =
      (⟨true, 99, 7⟩, ⟨true, true, false, false, true⟩, [Event.dragStart]) ∧
    (⟨true, 99, 7⟩ : DragState) ≠ ⟨true, 10, 0⟩ := by
  refine ⟨rfl, ?_⟩
  norm_num [DragState.mk.injEq]

/-- C2 (amended): a second pointer-down on the thumb while a drag session is
active is not a no-op: it re-baselines the session, overwriting the stored
start pointer X and start scrollLeft with the current values, and emits
another `dragStart`.  It does not, however, install a second set of
move/up listeners (the DOM discards a duplicate `addEventListener` with the
same handler, so the listener set is unchanged), and `isDragging` stays
true, so there is still a single active drag session. -/
theorem C2_amended (clientX scrollLeft : ℚ) (d : DragState) (L : DocListeners)
    (_hd : d.isDragging = true) (hm : L.mousemove = true) (hu : L.mouseup = true) :
    handleThumbMouseDown false clientX scrollLeft d L =
      ({ isDragging := true, dragStartX := clientX, dragStartScrollLeft := scrollLeft },
       L, [Event.dragStart]) := by
  cases L
  simp_all [handleThumbMouseDown, startDragging]

/-- Witness for C2 (amended) at a concrete in-drag state. -/
theorem C2_amended_witness :
    handleThumbMouseDown false 99 7 ⟨true, 10, 0⟩ ⟨true, true, false, false, true⟩ =
      (⟨true, 99, 7⟩, ⟨true, true, false, false, true⟩, [Event.dragStart]) :=
  C2_amended 99 7 ⟨true, 10, 0⟩ ⟨true, true, false, false, true⟩ rfl rfl rfl

/-- C3: the claim states that after `cleanup` runs, `isDragging` is false.
Counterexample: running `cleanup` on a state with an active drag session
leaves `isDragging` equal to true — `cleanup` removes listeners and
disconnects the observer but never resets the drag refs. -/
theorem C3_counterexample :
    (cleanup true ⟨⟨true, 5, 3⟩, ⟨true, true, true, true, true⟩, true, true⟩).drag.isDragging =
      true := rfl

/-- C3 (amended): `cleanup` detaches the scroll listener, disconnects the
resize observer and removes all five document listeners, idempotently and
regardless of which subset was attached (under the invariant that the
scroll listener can only be attached when the target element resolved) —
but it does not clear the drag session: the drag refs, `isDragging`
included, keep their prior values. -/
theorem C3_amended (targetResolved : Bool) (s : CompState)
    (hinv : s.scrollListenerAttached = true → targetResolved = true) :
    (cleanup targetResolved s).drag = s.drag ∧
    (cleanup targetResolved s).doc = ⟨false, false, false, false, false⟩ ∧
    (cleanup targetResolved s).resizeObserverActive = false ∧
    (cleanup targetResolved s).scrollListenerAttached = false ∧
    cleanup targetResolved (cleanup targetResolved s) = cleanup targetResolved s := by
  refine ⟨rfl, rfl, rfl, ?_, ?_⟩
  · cases htr : targetResolved
    · have hsl : s.scrollListenerAttached = false := by
        cases hsl : s.scrollListenerAttached
        · rfl
        · exact absurd (hinv hsl) (by simp [htr])
      simp [cleanup, hsl]
    · simp [cleanup]
  · cases targetResolved <;> simp [cleanup]

/-- Witness for C3 (amended) at a concrete fully-attached state mid-drag. -/
theorem C3_amended_witness :
    (cleanup true ⟨⟨true, 5, 3⟩, ⟨true, true, true, true, true⟩, true, true⟩).drag =
      (⟨⟨true, 5, 3⟩, ⟨true, true, true, true, true⟩, true, true⟩ : CompState).drag ∧
    (cleanup true ⟨⟨true, 5, 3⟩, ⟨true, true, true, true, true⟩, true, true⟩).doc =
      ⟨false, false, false, false, false⟩ ∧
    (cleanup true ⟨⟨true, 5, 3⟩, ⟨true, true, true, true, true⟩, true, true⟩).resizeObserverActive =
      false ∧
    (cleanup true ⟨⟨true, 5, 3⟩, ⟨true, true, true, true, true⟩, true, true⟩).scrollListenerAttached =
      false ∧
    cleanup true (cleanup true ⟨⟨true, 5, 3⟩, ⟨true, true, true, true, true⟩, true, true⟩) =
      cleanup true ⟨⟨true, 5, 3⟩, ⟨true, true, true, true, true⟩, true, true⟩ :=
  C3_amended true ⟨⟨true, 5, 3⟩, ⟨true, true, true, true, true⟩, true, true⟩ (fun _ => rfl)

/-- C4: the claim states that for all non-negative geometry inputs the
thumb position is monotonically non-decreasing in `scrollLeft` and
`thumbLeft + thumbWidth ≤ trackWidth`.  Counterexample: with target width
10, content width 100, track width 10, `minThumbWidth = 30` and
`maxScroll = 100`, the `minThumbWidth` floor makes the thumb (width 30)
wider than the track (width 10), so the position coefficient
`trackWidth - thumbWidth` is negative: the thumb position falls from 0 (at
`scrollLeft = 0`) to -20 (at `scrollLeft = 100`), and already at
`scrollLeft = 0` the thumb overflows the track (0 + 30 > 10). -/
theorem C4_counterexample :
    thumbWidthCalc 10 100 10 30 = 30 ∧
    thumbPosition 0 100 10 (thumbWidthCalc 10 100 10 30) = 0 ∧
    thumbPosition 100 100 10 (thumbWidthCalc 10 100 10 30) = -20 ∧
    ¬ (thumbPosition 0 100 10 (thumbWidthCalc 10 100 10 30) ≤
        thumbPosition 100 100 10 (thumbWidthCalc 10 100 10 30)) ∧
    ¬ (thumbPosition 0 100 10 (thumbWidthCalc 10 100 10 30) +
        thumbWidthCalc 10 100 10 30 ≤ 10) := by
  norm_num [thumbWidthCalc, thumbPosition]

/-- C4 (amended): under the additional assumption that the computed thumb
width fits in the track (`thumbWidth ≤ trackWidth` — which the
`minThumbWidth` floor can violate for a narrow track), the thumb position
is monotonically non-decreasing in `scrollLeft` on `[0, maxScroll]` and
`thumbLeft + thumbWidth ≤ trackWidth`. -/
theorem C4_amended (targetWidth contentWidth scrollbarWidth minThumbWidth maxScroll s1 s2 : ℚ)
    (_h0 : 0 ≤ s1) (h12 : s1 ≤ s2) (h2 : s2 ≤ maxScroll)
    (hfit : thumbWidthCalc targetWidth contentWidth scrollbarWidth minThumbWidth ≤
      scrollbarWidth) :
    thumbPosition s1 maxScroll scrollbarWidth
        (thumbWidthCalc targetWidth contentWidth scrollbarWidth minThumbWidth) ≤
      thumbPosition s2 maxScroll scrollbarWidth
        (thumbWidthCalc targetWidth contentWidth scrollbarWidth minThumbWidth) ∧
    thumbPosition s2 maxScroll scrollbarWidth
        (thumbWidthCalc targetWidth contentWidth scrollbarWidth minThumbWidth) +
      thumbWidthCalc targetWidth contentWidth scrollbarWidth minThumbWidth ≤
      scrollbarWidth := by
  set w := thumbWidthCalc targetWidth contentWidth scrollbarWidth minThumbWidth with hw
  have hwn : 0 ≤ scrollbarWidth - w := sub_nonneg.mpr hfit
  unfold thumbPosition
  by_cases hms : 0 < maxScroll
  · simp only [if_pos hms]
    constructor
    · have hq : s1 / maxScroll ≤ s2 / maxScroll :=
        (div_le_div_iff_of_pos_right hms).mpr h12
      exact mul_le_mul_of_nonneg_right hq hwn
    · have hq1 : s2 / maxScroll ≤ 1 := (div_le_one hms).mpr h2
      have h3 := mul_le_mul_of_nonneg_right hq1 hwn
      rw [one_mul] at h3
      linarith
  · simp only [if_neg hms]
    exact ⟨le_refl 0, by linarith⟩

/-- Witness for C4 (amended) at the spec's scenario geometry: target width
500, content width 1500, track width 300, `minThumbWidth = 30`,
`maxScroll = 1000`, `scrollLeft` going from 100 to 200. -/
theorem C4_amended_witness :
    thumbPosition 100 1000 300 (thumbWidthCalc 500 1500 300 30) ≤
      thumbPosition 200 1000 300 (thumbWidthCalc 500 1500 300 30) ∧
    thumbPosition 200 1000 300 (thumbWidthCalc 500 1500 300 30) +
      thumbWidthCalc 500 1500 300 30 ≤ 300 :=
  C4_amended 500 1500 300 30 1000 100 200 (by norm_num) (by norm_num) (by norm_num)
    (by norm_num [thumbWidthCalc])

/-- C5: `scrollToPosition`, called with a resolved target element, applies
the argument clamped to `[0, maxScroll]`: `-100` yields 0,
`maxScroll + 100` yields `maxScroll`, and an in-range argument is applied
unchanged. -/
theorem C5_scrollToPosition_clamps (maxScroll oldOffset p : ℚ) (hms : 0 ≤ maxScroll)
    (hp0 : 0 ≤ p) (hp1 : p ≤ maxScroll) :
    scrollToPosition true maxScroll oldOffset (-100) = 0 ∧
    scrollToPosition true maxScroll oldOffset (maxScroll + 100) = maxScroll ∧
    scrollToPosition true maxScroll oldOffset p = p := by
  unfold scrollToPosition
  refine ⟨?_, ?_, ?_⟩
  · simp only [if_true]
    exact max_eq_left (le_trans (min_le_right _ _) (by norm_num))
  · simp only [if_true]
    rw [min_eq_left (by linarith), max_eq_right hms]
  · simp only [if_true]
    rw [min_eq_right hp1, max_eq_right hp0]

/-- Witness for C5 at `maxScroll = 500`, in-range argument 3. -/
theorem C5_witness :
    scrollToPosition true 500 7 (-100) = 0 ∧
    scrollToPosition true 500 7 (500 + 100) = 500 ∧
    scrollToPosition true 500 7 3 = 3 :=
  C5_scrollToPosition_clamps 500 7 3 (by norm_num) (by norm_num) (by norm_num)

/-- C6: with `maxScroll > 0` and `thumbWidth < trackWidth`, feeding the
thumb geometry implied by a scroll offset back into the click computation
(click at the thumb center `thumbLeft + thumbWidth / 2`) and into the drag
computation (`deltaX` the thumb displacement from its start position)
recovers the originating `scrollLeft` exactly over exact arithmetic. -/
theorem C6_roundtrip (scrollLeft startScrollLeft maxScroll scrollbarWidth thumbWidth : ℚ)
    (_h0 : 0 ≤ scrollLeft) (_h1 : scrollLeft ≤ maxScroll)
    (hms : 0 < maxScroll) (hw : thumbWidth < scrollbarWidth) :
    offsetFromClick
        (thumbPosition scrollLeft maxScroll scrollbarWidth thumbWidth + thumbWidth / 2)
        scrollbarWidth thumbWidth maxScroll = JSNum.num scrollLeft ∧
    offsetFromDrag
        (thumbPosition scrollLeft maxScroll scrollbarWidth thumbWidth -
          thumbPosition startScrollLeft maxScroll scrollbarWidth thumbWidth)
        scrollbarWidth thumbWidth maxScroll startScrollLeft = JSNum.num scrollLeft := by
  have hne : scrollbarWidth - thumbWidth ≠ 0 := sub_ne_zero.mpr (ne_of_gt hw)
  have hmsne : maxScroll ≠ 0 := ne_of_gt hms
  unfold offsetFromClick offsetFromDrag thumbPosition
  simp only [if_pos hms, JSNum.jdiv_num_num _ _ hne, JSNum.jmul_num_num, JSNum.jadd_num_num]
  constructor
  · congr 1
    field_simp
    ring
  · congr 1
    field_simp
    ring

/-- Witness for C6 at `scrollLeft = 250`, `startScrollLeft = 100`,
`maxScroll = 1000`, track width 300, thumb width 100. -/
theorem C6_witness :
    offsetFromClick (thumbPosition 250 1000 300 100 + 100 / 2) 300 100 1000 =
      JSNum.num 250 ∧
    offsetFromDrag (thumbPosition 250 1000 300 100 - thumbPosition 100 1000 300 100)
        300 100 1000 100 = JSNum.num 250 :=
  C6_roundtrip 250 100 1000 300 100 (by norm_num) (by norm_num) (by norm_num) (by norm_num)

/-- C7: after any run of `updateScrollInfo` (with resolved elements), the
published state satisfies
`scrollPercent = (maxScroll > 0 ? scrollLeft / maxScroll * 100 : 0)`; in
particular when the published `maxScroll` is 0, `scrollPercent` is 0 and
the computed thumb position is 0 regardless of `scrollLeft` and of the
track/thumb geometry. -/
theorem C7_percent_invariant (autoShow : Bool)
    (minScrollDistance scrollbarWidth thumbWidth : ℚ) (m : DomMetrics)
    (s s' : ScrollState)
    (hs : s' = (updateScrollInfo true autoShow minScrollDistance m s).1) :
    s'.scrollPercent =
      (if 0 < s'.maxScroll then s'.scrollLeft / s'.maxScroll * 100 else 0) ∧
    (s'.maxScroll = 0 →
      s'.scrollPercent = 0 ∧
      thumbPosition s'.scrollLeft s'.maxScroll scrollbarWidth thumbWidth = 0) := by
  subst hs
  unfold updateScrollInfo
  simp only [Bool.true_eq_false, if_false]
  refine ⟨trivial, fun h => ?_⟩
  constructor
  · simp only at h ⊢
    rw [h]
    norm_num
  · simp only at h ⊢
    rw [h]
    unfold thumbPosition
    norm_num

/-- Witness for C7 at metrics `scrollLeft = 7`, `scrollWidth = 30`,
`clientWidth = 40` (so the recomputed `maxScroll` is 0 while the published
`scrollLeft` is 7). -/
theorem C7_witness :
    (⟨7, 0, 0, false⟩ : ScrollState).scrollPercent =
      (if 0 < (⟨7, 0, 0, false⟩ : ScrollState).maxScroll then
        (⟨7, 0, 0, false⟩ : ScrollState).scrollLeft /
          (⟨7, 0, 0, false⟩ : ScrollState).maxScroll * 100
      else 0) ∧
    ((⟨7, 0, 0, false⟩ : ScrollState).maxScroll = 0 →
      (⟨7, 0, 0, false⟩ : ScrollState).scrollPercent = 0 ∧
      thumbPosition (⟨7, 0, 0, false⟩ : ScrollState).scrollLeft
        (⟨7, 0, 0, false⟩ : ScrollState).maxScroll 300 100 = 0) :=
  C7_percent_invariant true 50 300 100 ⟨7, 30, 40⟩ ⟨0, 0, 0, false⟩ ⟨7, 0, 0, false⟩
    (by norm_num [updateScrollInfo])

/-- C8: the claim states that while a drag is active neither the throttled
scroll handler nor the resize-observer callback recomputes scroll state or
emits a scroll notification.  Counterexample: the resize-observer callback
is not gated on `isDragging` — with `isDragging = true`, resolved elements,
`minScrollDistance = 50` and metrics `(scrollLeft 5, scrollWidth 100,
clientWidth 40)`, it recomputes the state (to
`maxScroll = 60`, `scrollPercent = 25/3`) and emits a `scroll` event. -/
theorem C8_counterexample :
    resizeObserverCallback true true true 50 ⟨5, 100, 40⟩ ⟨0, 0, 0, false⟩ =
      (⟨5, 60, 25 / 3, true⟩, [Event.scroll 5 60 (25 / 3)]) := by
  norm_num [resizeObserverCallback, updateScrollInfo]

/-- C8 (amended): only the throttled scroll handler is gated on the drag
flag — while `isDragging` is true it leaves the state unchanged and emits
nothing; the resize-observer callback ignores the drag flag entirely and
behaves as a plain `updateScrollInfo` run (recomputing and emitting
`scroll`) even during a drag. -/
theorem C8_amended :
    (∀ (resolved autoShow : Bool) (minScrollDistance : ℚ) (m : DomMetrics)
        (s : ScrollState),
      throttledHandleScroll true resolved autoShow minScrollDistance m s = (s, [])) ∧
    (∀ (isDragging resolved autoShow : Bool) (minScrollDistance : ℚ) (m : DomMetrics)
        (s : ScrollState),
      resizeObserverCallback isDragging resolved autoShow minScrollDistance m s =
        updateScrollInfo resolved autoShow minScrollDistance m s) :=
  ⟨fun _ _ _ _ _ => rfl, fun _ _ _ _ _ _ => rfl⟩

/-- C9: with `disabled = true`, the click handler, both drag-start handlers
and the keyboard handler leave the scroll offset, the drag session and the
listener set unchanged and emit no `click`, `dragStart` or `keydown`
notification. -/
theorem C9_disabled_inert :
    (∀ (scrollbarRefPresent thumbRefPresent targetIsThumb targetResolved : Bool)
        (clickX scrollbarWidth thumbWidth maxScroll oldOffset : ℚ),
      handleScrollbarClick scrollbarRefPresent thumbRefPresent true targetIsThumb
        targetResolved clickX scrollbarWidth thumbWidth maxScroll oldOffset =
        (JSNum.num oldOffset, [])) ∧
    (∀ (clientX scrollLeft : ℚ) (d : DragState) (L : DocListeners),
      handleThumbMouseDown true clientX scrollLeft d L = (d, L, [])) ∧
    (∀ (clientX scrollLeft : ℚ) (d : DragState) (L : DocListeners),
      handleThumbTouchStart true clientX scrollLeft d L = (d, L, [])) ∧
    (∀ (enableKeyboard targetResolved : Bool) (key : Key)
        (scrollLeft scrollStep maxScroll oldOffset : ℚ),
      handleKeyDown enableKeyboard targetResolved true key scrollLeft scrollStep
        maxScroll oldOffset = (oldOffset, [])) := by
  refine ⟨?_, ?_, ?_, ?_⟩
  · intro p q t r c sw tw ms o
    simp [handleScrollbarClick]
  · intro x s d L
    simp [handleThumbMouseDown]
  · intro x s d L
    simp [handleThumbTouchStart]
  · intro ek tr k sl st ms o
    simp [handleKeyDown]

/-- C10: `getElement` reports failure asymmetrically: a string selector
matching nothing returns null and emits `error`; a resolver function
returning null/undefined returns null without emitting anything; in the
function case only a thrown exception produces an `error` emission. -/
theorem C10_getElement_asymmetry :
    getElement (Selector.str none) = (none, [Event.error]) ∧
    (∀ r : Option ℕ, getElement (Selector.fn r) = (r, [])) ∧
    getElement Selector.fnThrows = (none, [Event.error]) := by
  refine ⟨rfl, ?_, rfl⟩
  intro r
  cases r <;> rfl

end HScroll
